import Mathlib
set_option maxRecDepth 10000

/-!
Verification model of the AI-feature risk assessment engine
(`backend/app/main.py`).  The engine is a pure function from an
`AssessmentRequest` to an `AssessmentResponse`; every definition below is a
shallow embedding of the corresponding Python source.  Python strings are
modelled through their character lists (`String.data`); `.lower()` is modelled
as ASCII case folding, regular-expression searches are modelled by explicit
scanning functions that are equivalent to the specific patterns used in the
source (the patterns involved have no backtracking-relevant alternatives: all
units and keywords begin with letters, so greedy scanning is exact).
-/

/-- ASCII model of Python `str.lower()`: lower-case every character. -/
def lowerStr (s : String) : String := ⟨s.data.map Char.toLower⟩

/-- Model of Python whitespace (`str.strip`, regex `\s`) for ASCII text. -/
def isPySpace (c : Char) : Bool :=
  c = ' ' || c = '\t' || c = '\n' || c = '\r' || c = '\x0b' || c = '\x0c'

/-- Model of Python `str.strip()`: drop whitespace from both ends. -/
def pyStrip (s : String) : String :=
  ⟨((s.data.dropWhile isPySpace).reverse.dropWhile isPySpace).reverse⟩

/-- Does `pat` occur at the start of `cs`? (literal match). -/
def listStarts : List Char → List Char → Bool
  | [], _ => true
  | _ :: _, [] => false
  | a :: as, b :: bs => decide (a = b) && listStarts as bs

/-- Does `pat` occur anywhere inside `hay`? (Python `pat in hay`). -/
def listHasSub (pat : List Char) : List Char → Bool
  | [] => pat.isEmpty
  | b :: bs => listStarts pat (b :: bs) || listHasSub pat bs

/-- Python `pat in hay` on strings. -/
def strContains (hay pat : String) : Bool := listHasSub pat.data hay.data

/-- Regex word character (`\w`), ASCII model: alphanumeric or underscore. -/
def isWordChar (c : Char) : Bool := c.isAlphanum || c = '_'

/-- Boundary `\b` immediately after a literal that ends in a word character: holds at
end of input or when the next character is not a word character. -/
def boundaryAfter : List Char → Bool
  | [] => true
  | c :: _ => !isWordChar c

/-- Boundary `\b` immediately before a literal that starts with a word character:
holds at the start of input or after a non-word character. -/
def noWordBefore : Option Char → Bool
  | none => true
  | some c => !isWordChar c

/-- Scan every position of the text, testing pattern `p` at positions where a
word boundary precedes (all patterns used start with a word character). -/
def scanPat (p : List Char → Bool) : Option Char → List Char → Bool
  | _, [] => false
  | prev, c :: cs => (noWordBefore prev && p (c :: cs)) || scanPat p (some c) cs

/-- Model of `re.search(r"\b<word>\b", hay)` for a literal word. -/
def regexWordMatch (w : List Char) (hay : List Char) : Bool :=
  scanPat (fun cs => listStarts w cs && boundaryAfter (cs.drop w.length)) none hay

/-- Numeric value of a digit run (Python `int` on the captured group). -/
def digitsToNat (ds : List Char) : Nat :=
  ds.foldl (fun acc c => acc * 10 + (c.toNat - '0'.toNat)) 0

/-- One alternative of a unit group `(day|days|d)` followed by `\b`. -/
def unitAltMatch (alts : List (List Char)) (cs : List Char) : Bool :=
  alts.any (fun alt => listStarts alt cs && boundaryAfter (cs.drop alt.length))

/-- Model of `re.search(r"(\d+)\s*(<units>)\b", s)` returning the captured
integer.  Scans left to right; at each digit position takes the maximal digit
run, skips whitespace greedily and tries the unit alternatives (all unit
alternatives begin with a letter, so the greedy scan is equivalent to the
backtracking regex engine). -/
def reSearchNumUnit (alts : List (List Char)) : List Char → Option Nat
  | [] => none
  | c :: cs =>
    if c.isDigit then
      let ds := (c :: cs).takeWhile Char.isDigit
      let rest := ((c :: cs).dropWhile Char.isDigit).dropWhile isPySpace
      if unitAltMatch alts rest then some (digitsToNat ds)
      else reSearchNumUnit alts cs
    else reSearchNumUnit alts cs

/-- Python `str.isdigit()` (ASCII model): non-empty and all digits. -/
def pyIsDigitStr (s : String) : Bool := !s.data.isEmpty && s.data.all Char.isDigit

def dayUnits : List (List Char) := ["day".data, "days".data, "d".data]
def monthUnits : List (List Char) := ["month".data, "months".data, "m".data]
def yearUnits : List (List Char) := ["year".data, "years".data, "y".data]

/-- Function `_parse_retention_days` from the source: day pattern, then month pattern
(×30), then year pattern (×365), then a bare integer treated as days; `None`
for absent, falsy or unparseable input. -/
def _parse_retention_days : Option String → Option Nat
  | none => none
  | some retention =>
    if retention = "" then none
    else
      let s := lowerStr (pyStrip retention)
      if s = "" then none
      else
        match reSearchNumUnit dayUnits s.data with
        | some n => some n
        | none =>
          match reSearchNumUnit monthUnits s.data with
          | some n => some (n * 30)
          | none =>
            match reSearchNumUnit yearUnits s.data with
            | some n => some (n * 365)
            | none => if pyIsDigitStr s then some (digitsToNat s.data) else none

/-! ## Data model (pydantic request / response shapes) -/

/-- Request shape `AssessmentRequest` from the source.  Optional fields are `Option`s;
`vendors_involved` is `Optional[bool] = False` in the source. -/
structure AssessmentRequest where
  feature_name : String
  feature_description : String
  product_area : Option String := none
  jurisdictions : Option (List String) := none
  data_subjects : Option (List String) := none
  data_categories : Option (List String) := none
  processing_operations : Option (List String) := none
  purposes : Option (List String) := none
  lawful_basis_candidate : Option String := none
  retention : Option String := none
  vendors_involved : Option Bool := some false
  cross_border_transfers : Option String := none
  risk_appetite : Option String := none
  open_questions : Option String := none
deriving DecidableEq

/-- Risk shape `RiskItem` from the source. -/
structure RiskItem where
  id : String
  title : String
  gdpr_principle : String
  impact : String
  likelihood : String
  matched_on : String
  score : Nat
  description : Option String := none
deriving DecidableEq

/-- Response shape `AssessmentResponse` from the source. -/
structure AssessmentResponse where
  decision : String
  reasons : List String
  conditions : List String
  risks : List RiskItem
  markdown : String
deriving DecidableEq

/-- Python `xs or []` for an optional list field. -/
def listOrEmpty : Option (List String) → List String
  | none => []
  | some xs => xs

/-- Python `s or ""` for an optional string field. -/
def optStrOrEmpty : Option String → String
  | none => ""
  | some s => s

/-- Python truthiness of `Optional[bool]`: only `True` is truthy. -/
def optBoolTruthy : Option Bool → Bool
  | some true => true
  | _ => false

/-- Lower-cased copy of each entry of a list field (source lines 76-79). -/
def lowerList (xs : List String) : List String := xs.map lowerStr

/-- Python `" ".join(xs)`. -/
def joinSpace : List String → String
  | [] => ""
  | [x] => x
  | x :: y :: t => x ++ (" " ++ joinSpace (y :: t))

/-! ## Signal inference -/

/-- Signal `has_minors`: any lower-cased data subject contains child/minor/children. -/
def has_minors (req : AssessmentRequest) : Bool :=
  (lowerList (listOrEmpty req.data_subjects)).any
    (fun s => strContains s "child" || strContains s "minor" || strContains s "children")

/-- Special-category keyword table from `_has_special_category_data`. -/
def specialCategoryKeywords : List String :=
  ["special category", "biometric", "health", "medical", "genetic",
   "religion", "political", "sexual", "union", "race", "ethnic"]

/-- Function `_has_special_category_data`: some category, stripped and lower-cased and
non-empty, contains one of the special-category keywords as a substring. -/
def _has_special_category_data (data_categories : List String) : Bool :=
  data_categories.any (fun c =>
    let cl := lowerStr (pyStrip c)
    if cl = "" then false
    else specialCategoryKeywords.any (fun kw => strContains cl kw))

def has_special_category (req : AssessmentRequest) : Bool :=
  _has_special_category_data (listOrEmpty req.data_categories)

/-- Signal `lawful_basis_missing` (source lines 87-91): missing unless the candidate
is truthy, non-blank after stripping, and not "unknown"/"unclear". -/
def lawful_basis_missing (req : AssessmentRequest) : Bool :=
  match req.lawful_basis_candidate with
  | none => true
  | some lb =>
    if lb = "" then true
    else if pyStrip lb = "" then true
    else if lowerStr (pyStrip lb) = "unknown" then true
    else if lowerStr (pyStrip lb) = "unclear" then true
    else false

/-- Signal `content_like`: a lower-cased data category mentions content, prompt,
free-text or "free text". -/
def content_like (req : AssessmentRequest) : Bool :=
  (lowerList (listOrEmpty req.data_categories)).any
    (fun c => strContains c "content" || strContains c "prompt" ||
      strContains c "free-text" || strContains c "free text")

/-- Signal `logging_like`: a lower-cased processing operation mentions "log". -/
def logging_like (req : AssessmentRequest) : Bool :=
  (lowerList (listOrEmpty req.processing_operations)).any (fun o => strContains o "log")

def content_logged (req : AssessmentRequest) : Bool :=
  content_like req && logging_like req

/-- One negation pattern occurrence at the current position; the three source
patterns are
`\b(no|not|without)\s+(any\s+)?(training|train|fine[- ]?tune|finetune)\b`,
`\bdo not\s+(training|train|fine[- ]?tune|finetune)\b` and
`\bnot\s+used\s+for\s+training\b`. -/
def trainWordAlts : List (List Char) :=
  ["training".data, "train".data, "fine-tune".data, "fine tune".data, "finetune".data]

def trainWordAt (cs : List Char) : Bool :=
  trainWordAlts.any (fun a => listStarts a cs && boundaryAfter (cs.drop a.length))

/-- Whitespace run `\s+` (one or more characters), returning the remainder, or `none`. -/
def spaces1 : List Char → Option (List Char)
  | [] => none
  | c :: rest => if isPySpace c then some (rest.dropWhile isPySpace) else none

def negAt (cs : List Char) : Bool :=
  ((["no".data, "not".data, "without".data]).any (fun st =>
    listStarts st cs &&
      match spaces1 (cs.drop st.length) with
      | none => false
      | some rest =>
        trainWordAt rest ||
          (listStarts "any".data rest &&
            match spaces1 (rest.drop 3) with
            | none => false
            | some rest2 => trainWordAt rest2)))
  || (listStarts "do not".data cs &&
      match spaces1 (cs.drop 6) with
      | none => false
      | some rest => trainWordAt rest)
  || (listStarts "not".data cs &&
      match spaces1 (cs.drop 3) with
      | none => false
      | some r1 =>
        listStarts "used".data r1 &&
          match spaces1 (r1.drop 4) with
          | none => false
          | some r2 =>
            listStarts "for".data r2 &&
              match spaces1 (r2.drop 3) with
              | none => false
              | some r3 => listStarts "training".data r3 && boundaryAfter (r3.drop 8))

def negationMatch (hay : List Char) : Bool := scanPat negAt none hay

/-- Function `_infer_training_or_reuse`.  The positive keyword list is dispatched by
the source on `" " in k`: keywords containing a space are checked as literal
substrings (this includes the raw pattern text `\bfine[- ]?tune\b`, whose
character class contains a space), the others via `re.search`. -/
def _infer_training_or_reuse (feature_description : String)
    (processing_operations purposes : List String) : Bool :=
  let ops := lowerStr (joinSpace processing_operations)
  let desc := lowerStr feature_description
  let p := lowerStr (joinSpace purposes)
  if strContains ops "training" || strContains ops "train" then true
  else
    let haystack := desc ++ (" " ++ p)
    if negationMatch haystack.data then false
    else
      regexWordMatch "train".data haystack.data
      || strContains haystack "\\bfine[- ]?tune\\b"
      || regexWordMatch "finetune".data haystack.data
      || strContains haystack "improve the model"
      || strContains haystack "improve model"
      || strContains haystack "model improvement"
      || strContains haystack "learn from"
      || strContains haystack "reuse prompts"
      || strContains haystack "use prompts to improve"
      || strContains haystack "use logs to improve"
      || strContains haystack "use logs for training"

def training_or_reuse (req : AssessmentRequest) : Bool :=
  _infer_training_or_reuse req.feature_description
    (listOrEmpty req.processing_operations) (listOrEmpty req.purposes)

/-- Signal `has_automation`: a lower-cased operation contains "automated decision". -/
def has_automation (req : AssessmentRequest) : Bool :=
  (lowerList (listOrEmpty req.processing_operations)).any
    (fun o => strContains o "automated decision")

def significantKeywords : List String :=
  ["eligibility", "eligible", "access", "deny", "approve", "revoke", "suspend",
   "pricing", "price", "rate", "quote", "premium", "credit", "loan",
   "insurance", "admission", "selection", "employment", "termination"]

/-- Function `_infer_significant_effects`. -/
def _infer_significant_effects (feature_description : String)
    (product_area : Option String) (purposes processing_operations : List String) : Bool :=
  let desc := lowerStr feature_description
  let area := lowerStr (optStrOrEmpty product_area)
  let p := lowerStr (joinSpace purposes)
  let ops := lowerStr (joinSpace processing_operations)
  (["personalization", "personalisation", "profiling", "targeting"].any
      (fun x => strContains p x))
  || strContains ops "profil"
  || significantKeywords.any (fun k => strContains desc k)
  || significantKeywords.any (fun k => strContains area k)

def inferred_significant_effects (req : AssessmentRequest) : Bool :=
  _infer_significant_effects req.feature_description req.product_area
    (listOrEmpty req.purposes) (listOrEmpty req.processing_operations)

/-- Allowed-purpose table for the SHIP gate (source line 115). -/
def allowedPurposes : List String :=
  ["safety & security", "safety / security", "safety", "security", "product improvement"]

def purpose_ok (req : AssessmentRequest) : Bool :=
  (lowerList (listOrEmpty req.purposes)).any (fun p => decide (p ∈ allowedPurposes))

def retention_ok (req : AssessmentRequest) : Bool :=
  match _parse_retention_days req.retention with
  | none => true
  | some d => decide (d ≤ 30)

def retention_over_30 (req : AssessmentRequest) : Bool :=
  match _parse_retention_days req.retention with
  | none => false
  | some d => decide (d > 30)

/-- Signal `security_purpose` inside the content-sensitivity pattern. -/
def security_purpose (req : AssessmentRequest) : Bool :=
  (lowerList (listOrEmpty req.purposes)).any
    (fun p => strContains p "security" || strContains p "safety")

/-- Signal `cross_border_ok` inside the content-sensitivity pattern: absent, or
exactly "None" / "Within EEA" (case-sensitive, no normalization). -/
def cross_border_ok (req : AssessmentRequest) : Bool :=
  match req.cross_border_transfers with
  | none => true
  | some s => decide (s = "None") || decide (s = "Within EEA")

def vendor_ok (req : AssessmentRequest) : Bool := !optBoolTruthy req.vendors_involved

/-- Signal `low_sensitivity`, the branch condition of the content-sensitivity pattern. -/
def low_sensitivity (req : AssessmentRequest) : Bool :=
  security_purpose req
  && (match _parse_retention_days req.retention with
      | some d => decide (d ≤ 30)
      | none => false)
  && !training_or_reuse req
  && cross_border_ok req
  && vendor_ok req

/-! ## Risk items and condition strings (transcribed from the source) -/

def contentRiskLow : RiskItem :=
  { id := "content_sensitivity_low"
    title := "Content sensitivity risk (security logging with safeguards)"
    gdpr_principle := "Data minimisation; storage limitation; integrity and confidentiality"
    impact := "low"
    likelihood := "low"
    matched_on := "Free-text user content + logging selected (security purpose, short retention inferred)"
    score := 2
    description := some "Free-text logging appears limited to security/safety purposes with short retention and no training/reuse signals. Residual risk is treated as controlled, subject to continued enforcement of safeguards." }

def contentRiskDefault : RiskItem :=
  { id := "content_sensitivity"
    title := "Content sensitivity risk (free-text logging)"
    gdpr_principle := "Data minimisation; integrity and confidentiality"
    impact := "medium"
    likelihood := "medium"
    matched_on := "Free-text user content + logging selected"
    score := 6
    description := some "Logging free-text inputs increases the likelihood of capturing sensitive or confidential information and requires minimisation and access controls." }

def contentConditions : List String :=
  ["Implement content logging minimisation (log only what is necessary; avoid storing raw prompts where possible).",
   "Apply redaction/PII filtering for logs and enforce strict access controls.",
   "Document purposes for logging and communicate it transparently to users (privacy notice / in-product disclosure)."]

def storageRiskWith (d : Nat) : RiskItem :=
  { id := "storage_limitation"
    title := "Storage limitation risk (retention > 30 days)"
    gdpr_principle := "Storage limitation"
    impact := "medium"
    likelihood := "high"
    matched_on := "Retention parsed as " ++ (toString d ++ " days")
    score := 7
    description := some "Retention beyond 30 days increases exposure and requires a necessity/proportionality justification aligned to stated purposes." }

def conditionStorage : String :=
  "Reduce retention to ≤ 30 days or document a necessity/proportionality justification with safeguards (e.g., aggregation, minimisation)."

def lawfulRisk : RiskItem :=
  { id := "lawful_basis_uncertainty"
    title := "Lawful basis uncertainty"
    gdpr_principle := "Lawfulness, fairness and transparency"
    impact := "medium"
    likelihood := "medium"
    matched_on := "Lawful basis candidate missing/unknown"
    score := 6
    description := some "A credible lawful basis must be identified and documented before deployment." }

def conditionLawful : String :=
  "Define and document the lawful basis (and, where relevant, complete LIA/consent design) before launch."

def vendorRisk : RiskItem :=
  { id := "vendor_processor"
    title := "Third-party processor accountability"
    gdpr_principle := "Accountability; integrity and confidentiality"
    impact := "medium"
    likelihood := "medium"
    matched_on := "Vendors involved"
    score := 6
    description := some "Processor terms must cover instructions, security, retention, sub-processors, and auditability." }

def conditionVendor : String :=
  "Verify vendor processor terms, sub-processor controls, retention commitments, and security due diligence."

def transferRiskWith (s : String) : RiskItem :=
  { id := "international_transfers"
    title := "International transfers"
    gdpr_principle := "Lawfulness; accountability"
    impact := "medium"
    likelihood := "medium"
    matched_on := "Cross-border transfers: " ++ s
    score := 6
    description := some "Transfers require an appropriate mechanism and (where applicable) a transfer risk assessment per internal policy." }

def conditionTransfer : String :=
  "Confirm and document transfer mechanism (e.g., SCCs) and complete transfer risk assessment where required."

def trainingRiskWith (severe : Bool) : RiskItem :=
  { id := "training_or_reuse_user_content"
    title := "Training / reuse of user-provided content"
    gdpr_principle := "Purpose limitation; transparency; data minimisation"
    impact := if severe then "high" else "medium"
    likelihood := "medium"
    matched_on := "Training/reuse inferred from description or selected operations"
    score := if severe then 8 else 6
    description := some "Using prompts or user content to train or improve a model changes risk and governance expectations and requires explicit controls and transparency." }

def trainingConditions : List String :=
  ["Make training/reuse transparent in user-facing documentation and in-product disclosures, including consequences.",
   "Implement an opt-out (or obtain consent where required by internal policy) for training/reuse of user content.",
   "Minimise and protect training datasets (e.g., exclude sensitive content by default; apply filtering and access controls)."]

def autoSigRisk : RiskItem :=
  { id := "automation_significant_effects"
    title := "Automation with potentially significant effects"
    gdpr_principle := "Fairness; transparency; accountability"
    impact := "high"
    likelihood := "medium"
    matched_on := "Automation + significant-effects indicators inferred from purpose/product area/description"
    score := 8
    description := some "Automation appears linked to consequential decisions (e.g., access, eligibility, pricing) or profiling/personalisation; governance escalation is expected." }

def autoAdvRisk : RiskItem :=
  { id := "automation_advisory"
    title := "Automation present (no significant-effects indicators)"
    gdpr_principle := "Transparency; accountability"
    impact := "medium"
    likelihood := "medium"
    matched_on := "Automation selected without significant-effects indicators"
    score := 6
    description := some "Automation still requires clear explanations, meaningful human oversight, and a route to contest outcomes where relevant." }

def autoAdvConditions : List String :=
  ["Document the role of automation and implement meaningful human oversight in practice.",
   "Provide transparency about automation and a route to contest outcomes or request human review where relevant.",
   "Implement monitoring and periodic review to detect drift, bias, or unexpected impacts."]

/-! ## Risk-pattern phase (source lines 119-285), expressed as the fold of
independent contributions in source order: each contribution is the pair of
risk items and condition strings the corresponding `if`-block appends. -/

def contrib1 (req : AssessmentRequest) : List RiskItem × List String :=
  if content_logged req then
    if low_sensitivity req then ([contentRiskLow], [])
    else ([contentRiskDefault], contentConditions)
  else ([], [])

def contrib2 (req : AssessmentRequest) : List RiskItem × List String :=
  match _parse_retention_days req.retention with
  | some d => if d > 30 then ([storageRiskWith d], [conditionStorage]) else ([], [])
  | none => ([], [])

def contrib3 (req : AssessmentRequest) : List RiskItem × List String :=
  if lawful_basis_missing req then ([lawfulRisk], [conditionLawful]) else ([], [])

def contrib4 (req : AssessmentRequest) : List RiskItem × List String :=
  if optBoolTruthy req.vendors_involved then ([vendorRisk], [conditionVendor]) else ([], [])

def contrib5 (req : AssessmentRequest) : List RiskItem × List String :=
  match req.cross_border_transfers with
  | none => ([], [])
  | some s =>
    if s ≠ "" ∧ s ≠ "None" ∧ s ≠ "Within EEA" then ([transferRiskWith s], [conditionTransfer])
    else ([], [])

def contrib6 (req : AssessmentRequest) : List RiskItem × List String :=
  if training_or_reuse req then
    ([trainingRiskWith (has_special_category req || has_minors req)], trainingConditions)
  else ([], [])

def contrib7 (req : AssessmentRequest) : List RiskItem × List String :=
  if has_automation req && inferred_significant_effects req then ([autoSigRisk], [])
  else if has_automation req && !inferred_significant_effects req then
    ([autoAdvRisk], autoAdvConditions)
  else ([], [])

def riskPhase (req : AssessmentRequest) : List RiskItem × List String :=
  ((contrib1 req).1 ++ (contrib2 req).1 ++ (contrib3 req).1 ++ (contrib4 req).1 ++
     (contrib5 req).1 ++ (contrib6 req).1 ++ (contrib7 req).1,
   (contrib1 req).2 ++ (contrib2 req).2 ++ (contrib3 req).2 ++ (contrib4 req).2 ++
     (contrib5 req).2 ++ (contrib6 req).2 ++ (contrib7 req).2)

/-! ## Decision gating (source lines 287-333) -/

/-- Filter `material_risks`: score ≥ 5 or lower-cased impact in {medium, high}. -/
def material_risks (req : AssessmentRequest) : List RiskItem :=
  (riskPhase req).1.filter
    (fun r => decide (r.score ≥ 5) || decide (lowerStr r.impact ∈ (["medium", "high"] : List String)))

def assessDecision (req : AssessmentRequest) : String :=
  if has_minors req then "ESCALATE"
  else if has_special_category req then "ESCALATE"
  else if has_automation req && inferred_significant_effects req then "ESCALATE"
  else if !retention_ok req || !purpose_ok req then "SHIP WITH CONDITIONS"
  else if has_automation req && !inferred_significant_effects req then "SHIP WITH CONDITIONS"
  else if !(material_risks req).isEmpty || !(riskPhase req).2.isEmpty then "SHIP WITH CONDITIONS"
  else "SHIP"

def reasonMinors : String :=
  "Children/minors are within scope; heightened safeguards apply and escalation is required for governance review."
def reasonSpecial : String :=
  "Special category data is indicated (including proxy categories such as biometric data); escalation is required."
def reasonAutoEscalate : String :=
  "Automation is present with indicators of similarly significant effects; escalation is required for governance review."
def reasonShip1 : String :=
  "No escalation triggers identified (no minors, no special category data, no significant-effects automation indicators)."
def reasonShip2 : String :=
  "Retention is within 30 days and purposes align to safety/security or product improvement."
def reasonShipContent : String :=
  "Content logging appears limited to security/safety purposes with short retention and no training/reuse indicators."
def reasonShipResidual : String :=
  "On the provided inputs, residual risks appear proportionate and controlled for an internal governance workflow."
def reasonWCBase : String :=
  "No automatic escalation trigger identified; however, one or more governance risks require documented safeguards before shipping."
def reasonPurpose : String :=
  "Stated purposes do not clearly align with safety/security or product improvement; clarify purpose limitation and necessity."
def conditionPurpose : String :=
  "Clarify and document the specific purpose(s) and ensure processing is limited to those purposes (purpose limitation)."
def reasonRetention : String :=
  "Proposed retention exceeds 30 days; storage limitation requires a necessity/proportionality justification."
def reasonAutoWC : String :=
  "Automation is present without clear indicators of significant effects; transparency and oversight controls are required."

/-- Reasons appended by the decision step, in source order. -/
def decisionReasons (req : AssessmentRequest) : List String :=
  if has_minors req then [reasonMinors]
  else if has_special_category req then [reasonSpecial]
  else if has_automation req && inferred_significant_effects req then [reasonAutoEscalate]
  else if assessDecision req = "SHIP" then
    [reasonShip1, reasonShip2,
     if content_logged req then reasonShipContent else reasonShipResidual]
  else
    reasonWCBase ::
      ((if purpose_ok req then [] else [reasonPurpose]) ++
       (if retention_ok req then [] else [reasonRetention]) ++
       (if has_automation req && !inferred_significant_effects req then [reasonAutoWC] else []))

/-- The one condition the decision step may append (source line 323). -/
def decisionExtraConditions (req : AssessmentRequest) : List String :=
  if has_minors req then []
  else if has_special_category req then []
  else if has_automation req && inferred_significant_effects req then []
  else if assessDecision req = "SHIP" then []
  else if purpose_ok req then [] else [conditionPurpose]

/-- Conditions right before deduplication: accumulated pattern conditions
plus the decision-step condition, cleared entirely on ESCALATE. -/
def finalConditionsRaw (req : AssessmentRequest) : List String :=
  if assessDecision req = "ESCALATE" then []
  else (riskPhase req).2 ++ decisionExtraConditions req

/-- Function `_dedupe_preserve_order` from the source (`seen` models the Python set). -/
def dedupeAux (seen : List String) : List String → List String
  | [] => []
  | x :: xs => if x ∈ seen then dedupeAux seen xs else x :: dedupeAux (x :: seen) xs

def _dedupe_preserve_order (items : List String) : List String := dedupeAux [] items

/-! ## Assumptions and follow-ups builder (source lines 529-569) -/

def assumptionRetentionUnparsed : String :=
  "Retention period could not be parsed; the assessment assumes retention is interpreted as provided by the feature team."
def followupRetentionUnparsed : String :=
  "Confirm the exact retention period in days and whether automated deletion is enforced."
def assumptionRetentionUnspecified : String :=
  "Retention period is not specified; the assessment assumes data is not retained beyond what is necessary for stated purposes."
def followupRetentionUnspecified : String :=
  "Confirm the retention period and deletion mechanism for logs and user content."
def assumptionAutomation : String :=
  "Automation is present based on selected processing operations."
def followupAutomationSig : String :=
  "Confirm whether automated outputs are used for access, eligibility, pricing, or other similarly significant decisions."
def followupAutomationAdvisory1 : String :=
  "Confirm whether automation has any similarly significant effects for individuals (or is advisory only)."
def followupAutomationAdvisory2 : String :=
  "Confirm the human oversight workflow and how users can contest outcomes where relevant."
def assumptionTraining : String :=
  "Training/reuse of user content is inferred from provided inputs or description keywords."
def followupTraining1 : String :=
  "Confirm whether user content is used for training/reuse, the scope (opt-in/opt-out), and the default setting."
def followupTraining2 : String :=
  "Confirm minimisation measures for training datasets (e.g., filtering, exclusion of sensitive content)."
def followupLawful : String :=
  "Confirm the lawful basis and record the rationale in the governance documentation."
def followupVendors : String :=
  "Confirm vendor roles, data flows, and the status of processor terms and security due diligence."
def followupTransfers : String :=
  "Confirm transfer mechanism and whether a transfer risk assessment is required by internal policy."

/-- Python truthiness of `req.retention`. -/
def retentionTruthy (req : AssessmentRequest) : Bool :=
  match req.retention with
  | none => false
  | some r => decide (r ≠ "")

/-- Python truthiness of `req.cross_border_transfers and req.cross_border_transfers
not in {"None", "Within EEA"}` (source lines 217 and 566). -/
def transferCheckNeeded (req : AssessmentRequest) : Bool :=
  match req.cross_border_transfers with
  | none => false
  | some s => decide (s ≠ "") && decide (s ≠ "None") && decide (s ≠ "Within EEA")

/-- Function `_build_assumptions_and_followups`: each source `if` block appends to the
two accumulator lists; the result is the pair (assumptions, follow_ups). -/
def _build_assumptions_and_followups (req : AssessmentRequest)
    (retention_days : Option Nat) (ha ise tor lbm : Bool) : List String × List String :=
  let retPart : List String × List String :=
    match retention_days with
    | none =>
      if retentionTruthy req then ([assumptionRetentionUnparsed], [followupRetentionUnparsed])
      else ([assumptionRetentionUnspecified], [followupRetentionUnspecified])
    | some _ => ([], [])
  let autoPart : List String × List String :=
    if ha then
      ([assumptionAutomation],
       if ise then [followupAutomationSig]
       else [followupAutomationAdvisory1, followupAutomationAdvisory2])
    else ([], [])
  let trainPart : List String × List String :=
    if tor then ([assumptionTraining], [followupTraining1, followupTraining2]) else ([], [])
  let lawfulPart : List String := if lbm then [followupLawful] else []
  let vendorPart : List String := if optBoolTruthy req.vendors_involved then [followupVendors] else []
  let transferPart : List String := if transferCheckNeeded req then [followupTransfers] else []
  (retPart.1 ++ autoPart.1 ++ trainPart.1,
   retPart.2 ++ autoPart.2 ++ trainPart.2 ++ lawfulPart ++ vendorPart ++ transferPart)

def assessAssumptionsFollowups (req : AssessmentRequest) : List String × List String :=
  _build_assumptions_and_followups req (_parse_retention_days req.retention)
    (has_automation req) (inferred_significant_effects req)
    (training_or_reuse req) (lawful_basis_missing req)

/-! ## Report renderer (source lines 357-399) -/

/-- Python `"\n".join xs`. -/
def joinNL : List String → String
  | [] => ""
  | [x] => x
  | x :: y :: t => x ++ ("\n" ++ joinNL (y :: t))

/-- Python `a or b` on strings: `b` exactly when `a` is empty. -/
def strOr (a b : String) : String := if a = "" then b else a

def bulletLines (xs : List String) : String := joinNL (xs.map (fun x => "- " ++ x))

def riskLine (r : RiskItem) : String :=
  "- **" ++ (r.title ++ ("** — principle: " ++ (r.gdpr_principle ++ (" (impact: " ++
    (r.impact ++ (", likelihood: " ++ (r.likelihood ++ (") — matched on: " ++ r.matched_on))))))))

def _render_markdown (req : AssessmentRequest) (decision : String)
    (reasons : List String) (risks : List RiskItem) (conditions : List String)
    (assumptions : List String) (follow_ups : List String) : String :=
  String.join
    ["# AI Feature Risk Assessment\n\n## Executive summary\n**Decision:** ", decision,
     "\n\n## Feature overview\n**Feature name:** ", req.feature_name,
     "\n\n## Assumptions\n", strOr (bulletLines assumptions) "_None._",
     "\n\n## Decision rationale\n", strOr (bulletLines reasons) "_None provided._",
     "\n\n## Conditions (if applicable)\n", strOr (bulletLines conditions) "_None._",
     "\n\n## Identified risks\n", strOr (joinNL (risks.map riskLine)) "_No risks returned._",
     "\n\n## Open questions / Follow-ups\n", strOr (bulletLines follow_ups) "_None._", "\n"]

/-! ## The assessment engine -/

/-- Engine `assess` (source lines 65-354): risk-pattern accumulation, decision
gating, the ESCALATE condition clearing, deduplication and rendering. -/
def assess (req : AssessmentRequest) : AssessmentResponse :=
  { decision := assessDecision req
    reasons := decisionReasons req
    conditions := _dedupe_preserve_order (finalConditionsRaw req)
    risks := (riskPhase req).1
    markdown := _render_markdown req (assessDecision req) (decisionReasons req)
      (riskPhase req).1 (_dedupe_preserve_order (finalConditionsRaw req))
      (assessAssumptionsFollowups req).1 (assessAssumptionsFollowups req).2 }

/-! ## General lemmas about the deduplication pass -/

lemma mem_dedupeAux (x : String) :
    ∀ (l seen : List String), x ∈ dedupeAux seen l ↔ x ∈ l ∧ x ∉ seen := by
  intro l
  induction l with
  | nil => intro seen; simp [dedupeAux]
  | cons a t ih =>
    intro seen
    by_cases ha : a ∈ seen
    · rw [show dedupeAux seen (a :: t) = dedupeAux seen t from by
          simp only [dedupeAux, if_pos ha], ih, List.mem_cons]
      constructor
      · rintro ⟨hx, hs⟩; exact ⟨Or.inr hx, hs⟩
      · rintro ⟨rfl | hx, hs⟩
        · exact absurd ha hs
        · exact ⟨hx, hs⟩
    · rw [show dedupeAux seen (a :: t) = a :: dedupeAux (a :: seen) t from by
          simp only [dedupeAux, if_neg ha], List.mem_cons, ih, List.mem_cons,
        List.mem_cons]
      constructor
      · rintro (rfl | ⟨hx, hs⟩)
        · exact ⟨Or.inl rfl, ha⟩
        · exact ⟨Or.inr hx, fun h => hs (Or.inr h)⟩
      · rintro ⟨rfl | hx, hs⟩
        · exact Or.inl rfl
        · by_cases hxa : x = a
          · exact Or.inl hxa
          · exact Or.inr ⟨hx, by simp [hxa, hs]⟩

lemma nodup_dedupeAux : ∀ (l seen : List String), (dedupeAux seen l).Nodup := by
  intro l
  induction l with
  | nil => intro seen; simp [dedupeAux]
  | cons a t ih =>
    intro seen
    by_cases ha : a ∈ seen
    · rw [show dedupeAux seen (a :: t) = dedupeAux seen t from by
          simp only [dedupeAux, if_pos ha]]
      exact ih seen
    · rw [show dedupeAux seen (a :: t) = a :: dedupeAux (a :: seen) t from by
          simp only [dedupeAux, if_neg ha]]
      refine List.Nodup.cons ?_ (ih (a :: seen))
      intro hmem
      rw [mem_dedupeAux] at hmem
      exact hmem.2 (List.mem_cons_self _ _)

lemma sublist_dedupeAux : ∀ (l seen : List String), (dedupeAux seen l).Sublist l := by
  intro l
  induction l with
  | nil => intro seen; simp [dedupeAux]
  | cons a t ih =>
    intro seen
    by_cases ha : a ∈ seen
    · rw [show dedupeAux seen (a :: t) = dedupeAux seen t from by
          simp only [dedupeAux, if_pos ha]]
      exact (ih seen).cons a
    · rw [show dedupeAux seen (a :: t) = a :: dedupeAux (a :: seen) t from by
          simp only [dedupeAux, if_neg ha]]
      exact (ih (a :: seen)).cons₂ a

lemma mem_dedupe (x : String) (l : List String) :
    x ∈ _dedupe_preserve_order l ↔ x ∈ l := by
  rw [_dedupe_preserve_order, mem_dedupeAux]; simp

/-- C8: the response conditions list is the first-occurrence deduplication of
the accumulated condition strings: no duplicates, the relative order of the
kept occurrences is preserved (sublist), and nothing is lost or added
(same membership). -/
theorem conditions_deduped_no_duplicates (req : AssessmentRequest) :
    (assess req).conditions.Nodup
  ∧ List.Sublist (assess req).conditions (finalConditionsRaw req)
  ∧ (∀ x, x ∈ (assess req).conditions ↔ x ∈ finalConditionsRaw req) := by
  refine ⟨nodup_dedupeAux _ _, sublist_dedupeAux _ _, fun x => mem_dedupe x _⟩

/-- C2: whenever the decision is ESCALATE the conditions list of the response
is empty, whatever conditions the risk patterns accumulated. -/
theorem escalate_implies_no_conditions (req : AssessmentRequest)
    (h : (assess req).decision = "ESCALATE") : (assess req).conditions = [] := by
  have h' : assessDecision req = "ESCALATE" := h
  show _dedupe_preserve_order (finalConditionsRaw req) = []
  rw [finalConditionsRaw, if_pos h']
  rfl

def reqEscalateVendors : AssessmentRequest :=
  { feature_name := "Minor flag"
    feature_description := "A tool for children accounts"
    data_subjects := some ["children"]
    data_categories := some ["usage logs"]
    vendors_involved := some true }

theorem escalate_implies_no_conditions_witness :
    (assess reqEscalateVendors).decision = "ESCALATE"
  ∧ (assess reqEscalateVendors).conditions = [] :=
  ⟨by decide, escalate_implies_no_conditions reqEscalateVendors (by decide)⟩

/-- C1: minors in the data subjects, special-category data categories, or
automation together with inferred significant effects, each force the
decision ESCALATE. -/
theorem escalation_triggers (req : AssessmentRequest)
    (h : has_minors req = true ∨ has_special_category req = true ∨
      (has_automation req = true ∧ inferred_significant_effects req = true)) :
    (assess req).decision = "ESCALATE" := by
  show assessDecision req = "ESCALATE"
  unfold assessDecision
  rcases h with h | h | ⟨h1, h2⟩
  · simp [h]
  · by_cases hm : has_minors req <;> simp [hm, h]
  · by_cases hm : has_minors req <;> by_cases hs : has_special_category req <;>
      simp [hm, hs, h1, h2]

def reqMinors : AssessmentRequest :=
  { feature_name := "Teen mode"
    feature_description := "Assistant for school use"
    data_subjects := some ["Children under 16"]
    purposes := some ["education"] }

theorem escalation_triggers_witness :
    has_minors reqMinors = true ∧ (assess reqMinors).decision = "ESCALATE" :=
  ⟨by decide, escalation_triggers reqMinors (Or.inl (by decide))⟩

/-- C4: retention parsing follows the day / month / year / bare-integer
precedence with the first matching pattern winning, and degrades to `none`
on absent, empty, blank or unparseable input.  The "1 month 2 days" case
shows the day pattern is preferred even when a month phrase occurs first. -/
theorem retention_parsing_cases :
    _parse_retention_days (some "45d") = some 45
  ∧ _parse_retention_days (some "6 months") = some 180
  ∧ _parse_retention_days (some "1 year") = some 365
  ∧ _parse_retention_days (some "90") = some 90
  ∧ _parse_retention_days (some "") = none
  ∧ _parse_retention_days none = none
  ∧ _parse_retention_days (some "abc") = none
  ∧ _parse_retention_days (some "   ") = none
  ∧ _parse_retention_days (some "1 month 2 days") = some 2
  ∧ _parse_retention_days (some "30 days") = some 30
  ∧ _parse_retention_days (some "5 m") = some 150
  ∧ _parse_retention_days (some "2 y") = some 730 := by
  decide

/-- C5: evaluation of `_infer_training_or_reuse` on a description that uses
"fine-tune" as a whole word.  The source dispatches its keyword list on
`" " in k`, so the raw pattern text `\bfine[- ]?tune\b` (which contains a
space inside its character class) is checked as a literal substring and can
never match real text: the hyphenated whole word "fine-tune" therefore does
NOT set the training/reuse signal, contradicting the stated whole-word
semantics. -/
theorem finetune_keyword_never_matches :
    _infer_training_or_reuse "we fine-tune a model using prompts" [] [] = false
  ∧ _infer_training_or_reuse "the team will fine tune on user chats" [] [] = false
  ∧ _infer_training_or_reuse "we finetune a model using prompts" [] [] = true := by
  decide

/-! ## Lemmas for the decision-rationale rendering -/

lemma strData_append (a b : String) : (a ++ b).data = a.data ++ b.data := rfl

lemma bulletLines_cons_shape (x : String) (xs : List String) :
    ∃ t, (bulletLines (x :: xs)).data = '-' :: ' ' :: t := by
  cases xs with
  | nil => exact ⟨x.data, rfl⟩
  | cons y t =>
    refine ⟨x.data ++ ("\n" ++
      joinNL (("- " ++ y) :: t.map (fun z => "- " ++ z))).data, ?_⟩
    rw [show bulletLines (x :: y :: t) = ("- " ++ x) ++ ("\n" ++
        joinNL (("- " ++ y) :: t.map (fun z => "- " ++ z))) from rfl]
    rw [strData_append]
    rfl

lemma strOr_bullet_ne_placeholder (x : String) (xs : List String) :
    strOr (bulletLines (x :: xs)) "_None provided._" ≠ "_None provided._" := by
  obtain ⟨t, ht⟩ := bulletLines_cons_shape x xs
  have hne : bulletLines (x :: xs) ≠ "" := by
    intro h
    have hd := congrArg String.data h
    rw [ht] at hd
    exact List.noConfusion hd
  rw [strOr, if_neg hne]
  intro h
  have hd := congrArg String.data h
  rw [ht] at hd
  injection hd with h1 _
  exact absurd h1 (by decide)

/-- C10: the reasons list of every response is non-empty (each decision
branch appends at least one reason), so the decision-rationale section of
the rendered report never falls back to the "_None provided._" placeholder. -/
theorem reasons_never_empty (req : AssessmentRequest) :
    (assess req).reasons ≠ []
  ∧ strOr (bulletLines (assess req).reasons) "_None provided._" ≠ "_None provided._" := by
  have h : ∃ x xs, decisionReasons req = x :: xs := by
    unfold decisionReasons
    repeat' split
    all_goals exact ⟨_, _, rfl⟩
  obtain ⟨x, xs, hx⟩ := h
  have hr : (assess req).reasons = x :: xs := hx
  rw [hr]
  exact ⟨by simp, strOr_bullet_ne_placeholder x xs⟩

/-! ## Content-sensitivity branching (claim C6) -/

lemma cross_border_ok_iff (req : AssessmentRequest) :
    cross_border_ok req = true ↔
      (req.cross_border_transfers = none ∨ req.cross_border_transfers = some "None"
        ∨ req.cross_border_transfers = some "Within EEA") := by
  unfold cross_border_ok
  cases hcb : req.cross_border_transfers with
  | none => simp
  | some s => simp [hcb]

lemma vendor_ok_iff (req : AssessmentRequest) :
    vendor_ok req = true ↔ req.vendors_involved ≠ some true := by
  unfold vendor_ok optBoolTruthy
  cases hv : req.vendors_involved with
  | none => simp
  | some b => cases b <;> simp

/-- The condition under which the source's low-sensitivity content branch is
taken, written out as the specification describes it. -/
def lowSensitivitySpec (req : AssessmentRequest) : Prop :=
  security_purpose req = true
  ∧ (∃ d, _parse_retention_days req.retention = some d ∧ d ≤ 30)
  ∧ training_or_reuse req = false
  ∧ (req.cross_border_transfers = none ∨ req.cross_border_transfers = some "None"
      ∨ req.cross_border_transfers = some "Within EEA")
  ∧ req.vendors_involved ≠ some true

lemma low_sensitivity_iff (req : AssessmentRequest) :
    low_sensitivity req = true ↔ lowSensitivitySpec req := by
  unfold low_sensitivity lowSensitivitySpec
  rw [show (security_purpose req
      && (match _parse_retention_days req.retention with
          | some d => decide (d ≤ 30)
          | none => false)
      && !training_or_reuse req && cross_border_ok req && vendor_ok req) =
      (security_purpose req
        && ((match _parse_retention_days req.retention with
            | some d => decide (d ≤ 30)
            | none => false)
          && (!training_or_reuse req && (cross_border_ok req && vendor_ok req))))
    from by
      cases security_purpose req <;> cases training_or_reuse req <;>
        cases cross_border_ok req <;> cases vendor_ok req <;> simp]
  rw [Bool.and_eq_true, Bool.and_eq_true, Bool.and_eq_true, Bool.and_eq_true]
  rw [cross_border_ok_iff, vendor_ok_iff, Bool.not_eq_true']
  cases hpd : _parse_retention_days req.retention <;> simp [hpd]

lemma low_sensitivity_false_of_not_spec (req : AssessmentRequest)
    (h : ¬ lowSensitivitySpec req) : low_sensitivity req = false := by
  cases hb : low_sensitivity req with
  | false => rfl
  | true => exact absurd ((low_sensitivity_iff req).mp hb) h

/-- C6: with content logging, the low-sensitivity content risk (impact low,
score 2, no conditions) is emitted exactly under the conjunction of
security/safety purpose, parsed retention ≤ 30 days, no training/reuse,
cross-border transfers exactly absent / "None" / "Within EEA" (case
sensitive), and no vendors; in every other case the default content risk
(impact medium, score 6) is emitted together with its three standard
conditions. -/
theorem content_sensitivity_branches (req : AssessmentRequest)
    (h : content_logged req = true) :
    (lowSensitivitySpec req →
      contrib1 req = ([contentRiskLow], [])
        ∧ (assess req).risks.head? = some contentRiskLow)
  ∧ (¬ lowSensitivitySpec req →
      contrib1 req = ([contentRiskDefault], contentConditions)
        ∧ (assess req).risks.head? = some contentRiskDefault)
  ∧ contentRiskLow.impact = "low" ∧ contentRiskLow.score = 2
  ∧ contentRiskDefault.impact = "medium" ∧ contentRiskDefault.score = 6
  ∧ contentConditions.length = 3 := by
  refine ⟨?_, ?_, rfl, rfl, rfl, rfl, rfl⟩
  · intro hspec
    have hlow : low_sensitivity req = true := (low_sensitivity_iff req).mpr hspec
    have hc1 : contrib1 req = ([contentRiskLow], []) := by
      simp only [contrib1, h, hlow, if_true]
    refine ⟨hc1, ?_⟩
    show ((riskPhase req).1).head? = some contentRiskLow
    unfold riskPhase
    rw [hc1]
    rfl
  · intro hspec
    have hlow : low_sensitivity req = false := low_sensitivity_false_of_not_spec req hspec
    have hc1 : contrib1 req = ([contentRiskDefault], contentConditions) := by
      simp only [contrib1, h, hlow, if_true, Bool.false_eq_true, if_false]
    refine ⟨hc1, ?_⟩
    show ((riskPhase req).1).head? = some contentRiskDefault
    unfold riskPhase
    rw [hc1]
    rfl

def reqContentLow : AssessmentRequest :=
  { feature_name := "Security log review"
    feature_description := "Logs user chats for abuse detection"
    data_subjects := some ["end users"]
    data_categories := some ["content/prompts"]
    processing_operations := some ["logging"]
    purposes := some ["security"]
    lawful_basis_candidate := some "legitimate interest"
    retention := some "14 days"
    vendors_involved := some false
    cross_border_transfers := some "None" }

theorem content_sensitivity_branches_witness :
    content_logged reqContentLow = true
  ∧ (assess reqContentLow).risks.head? = some contentRiskLow := by
  refine ⟨by decide, ?_⟩
  have h := content_sensitivity_branches reqContentLow (by decide)
  exact (h.1 ⟨by decide, ⟨14, by decide, by decide⟩, by decide,
    Or.inr (Or.inl rfl), by decide⟩).2

/-! ## The SHIP scenario (claim C3) -/

/-- The scenario request of the specification, with free feature name,
feature description and product area. -/
def reqScenarioShip (fn fd : String) (pa : Option String) : AssessmentRequest :=
  { feature_name := fn
    feature_description := fd
    product_area := pa
    data_subjects := some ["end users"]
    data_categories := some ["content/prompts", "usage logs"]
    processing_operations := some ["collection", "storage", "analysis", "logging"]
    purposes := some ["security"]
    lawful_basis_candidate := some "legitimate interest"
    retention := some "14 days"
    vendors_involved := some false
    cross_border_transfers := some "None" }

/-- C3: on the specification's SHIP scenario (free-text fields carrying no
training/reuse and no significant-effects signals), the decision is SHIP,
the risks are exactly the low-sensitivity content risk (impact low, score 2)
and the conditions are empty. -/
theorem ship_scenario (fn fd : String) (pa : Option String)
    (h1 : _infer_training_or_reuse fd
      ["collection", "storage", "analysis", "logging"] ["security"] = false)
    (h2 : _infer_significant_effects fd pa
      ["security"] ["collection", "storage", "analysis", "logging"] = false) :
    (assess (reqScenarioShip fn fd pa)).decision = "SHIP"
  ∧ (assess (reqScenarioShip fn fd pa)).risks = [contentRiskLow]
  ∧ contentRiskLow.impact = "low" ∧ contentRiskLow.score = 2
  ∧ (assess (reqScenarioShip fn fd pa)).conditions = [] := by
  have ht : training_or_reuse (reqScenarioShip fn fd pa) = false := h1
  have hs : inferred_significant_effects (reqScenarioShip fn fd pa) = false := h2
  have hlow : low_sensitivity (reqScenarioShip fn fd pa) = true := by
    unfold low_sensitivity
    rw [ht]
    rfl
  have hc1 : contrib1 (reqScenarioShip fn fd pa) = ([contentRiskLow], []) := by
    simp only [contrib1, hlow, if_true]
    rfl
  have hc6 : contrib6 (reqScenarioShip fn fd pa) = ([], []) := by
    simp only [contrib6, ht, Bool.false_eq_true, if_false]
  have hphase : riskPhase (reqScenarioShip fn fd pa) = ([contentRiskLow], []) := by
    unfold riskPhase
    rw [hc1, hc6]
    rfl
  have hdec : assessDecision (reqScenarioShip fn fd pa) = "SHIP" := by
    unfold assessDecision material_risks
    rw [hphase]
    rfl
  refine ⟨?_, ?_, rfl, rfl, ?_⟩
  · simp only [assess]
    exact hdec
  · simp only [assess]
    rw [hphase]
  · simp only [assess]
    unfold finalConditionsRaw decisionExtraConditions
    rw [hdec, hphase]
    rfl

theorem ship_scenario_witness :
    _infer_training_or_reuse "Logs user chats for abuse detection"
      ["collection", "storage", "analysis", "logging"] ["security"] = false
  ∧ (assess (reqScenarioShip "Abuse detection logging"
      "Logs user chats for abuse detection" none)).decision = "SHIP" :=
  ⟨by decide,
   (ship_scenario "Abuse detection logging" "Logs user chats for abuse detection"
     none (by decide) (by decide)).1⟩

/-! ## SHIP WITH CONDITIONS failing criteria (claim C7) -/

lemma bool_eq_false {b : Bool} (h : ¬(b = true)) : b = false := by
  cases b
  · rfl
  · exact absurd rfl h

lemma wc_branch_facts (req : AssessmentRequest)
    (h' : assessDecision req = "SHIP WITH CONDITIONS") :
    has_minors req = false ∧ has_special_category req = false
  ∧ (has_automation req && inferred_significant_effects req) = false := by
  by_cases hm : has_minors req = true
  · exfalso
    unfold assessDecision at h'
    rw [if_pos hm] at h'
    exact absurd h' (by decide)
  by_cases hs : has_special_category req = true
  · exfalso
    unfold assessDecision at h'
    rw [if_neg hm, if_pos hs] at h'
    exact absurd h' (by decide)
  by_cases ha : (has_automation req && inferred_significant_effects req) = true
  · exfalso
    unfold assessDecision at h'
    rw [if_neg hm, if_neg hs, if_pos ha] at h'
    exact absurd h' (by decide)
  exact ⟨bool_eq_false hm, bool_eq_false hs, bool_eq_false ha⟩

/-- C7: on the SHIP WITH CONDITIONS path the reasons list is exactly the base
reason followed by one dedicated reason per failing criterion in evaluation
order (purpose, retention, automation without significant effects), and each
failing criterion also has its dedicated condition in the response: the
purpose-limitation condition from the decision step, the storage-limitation
condition from the retention risk pattern, and the three oversight conditions
from the advisory automation pattern. -/
theorem with_conditions_failing_criteria (req : AssessmentRequest)
    (h : (assess req).decision = "SHIP WITH CONDITIONS") :
    (assess req).reasons =
      reasonWCBase ::
        ((if purpose_ok req then [] else [reasonPurpose]) ++
         (if retention_ok req then [] else [reasonRetention]) ++
         (if has_automation req && !inferred_significant_effects req
            then [reasonAutoWC] else []))
  ∧ (purpose_ok req = false →
      reasonPurpose ∈ (assess req).reasons ∧ conditionPurpose ∈ (assess req).conditions)
  ∧ (retention_ok req = false →
      reasonRetention ∈ (assess req).reasons ∧ conditionStorage ∈ (assess req).conditions)
  ∧ (has_automation req = true ∧ inferred_significant_effects req = false →
      reasonAutoWC ∈ (assess req).reasons
        ∧ ∀ c ∈ autoAdvConditions, c ∈ (assess req).conditions) := by
  have h' : assessDecision req = "SHIP WITH CONDITIONS" := by
    have h2 := h
    simp only [assess] at h2
    exact h2
  obtain ⟨hm, hs, hae⟩ := wc_branch_facts req h'
  have hm' : ¬(has_minors req = true) := by simp [hm]
  have hs' : ¬(has_special_category req = true) := by simp [hs]
  have hae' : ¬((has_automation req && inferred_significant_effects req) = true) := by
    simp [hae]
  have hnship : ¬(assessDecision req = "SHIP") := by rw [h']; decide
  have hnesc : ¬(assessDecision req = "ESCALATE") := by rw [h']; decide
  have hreasons : decisionReasons req =
      reasonWCBase ::
        ((if purpose_ok req then [] else [reasonPurpose]) ++
         (if retention_ok req then [] else [reasonRetention]) ++
         (if has_automation req && !inferred_significant_effects req
            then [reasonAutoWC] else [])) := by
    unfold decisionReasons
    rw [if_neg hm', if_neg hs', if_neg hae', if_neg hnship]
  have hconds_raw : finalConditionsRaw req =
      (riskPhase req).2 ++ decisionExtraConditions req := by
    unfold finalConditionsRaw
    rw [if_neg hnesc]
  have hmemconds : ∀ x, x ∈ (assess req).conditions ↔
      x ∈ (riskPhase req).2 ++ decisionExtraConditions req := by
    intro x
    have : (assess req).conditions = _dedupe_preserve_order (finalConditionsRaw req) := by
      simp only [assess]
    rw [this, mem_dedupe, hconds_raw]
  refine ⟨?_, ?_, ?_, ?_⟩
  · simp only [assess]
    exact hreasons
  · intro hp
    have hp' : ¬(purpose_ok req = true) := by simp [hp]
    constructor
    · simp only [assess]
      rw [hreasons]
      simp [hp]
    · refine (hmemconds conditionPurpose).mpr (List.mem_append.mpr (Or.inr ?_))
      unfold decisionExtraConditions
      rw [if_neg hm', if_neg hs', if_neg hae', if_neg hnship, if_neg hp']
      simp
  · intro hr
    have hrd : ∃ d, _parse_retention_days req.retention = some d ∧ 30 < d := by
      unfold retention_ok at hr
      cases hpd : _parse_retention_days req.retention with
      | none => rw [hpd] at hr; exact absurd hr (by decide)
      | some d =>
        rw [hpd] at hr
        refine ⟨d, rfl, ?_⟩
        have := of_decide_eq_false hr
        omega
    obtain ⟨d, hpd, hd30⟩ := hrd
    constructor
    · simp only [assess]
      rw [hreasons]
      simp [hr]
    · have hc2 : contrib2 req = ([storageRiskWith d], [conditionStorage]) := by
        unfold contrib2
        rw [hpd]
        simp [hd30]
      refine (hmemconds conditionStorage).mpr (List.mem_append.mpr (Or.inl ?_))
      simp only [riskPhase]
      rw [hc2]
      simp
  · rintro ⟨ha, hi⟩
    have hc7 : contrib7 req = ([autoAdvRisk], autoAdvConditions) := by
      simp [contrib7, ha, hi]
    constructor
    · simp only [assess]
      rw [hreasons]
      simp [ha, hi]
    · intro c hc
      refine (hmemconds c).mpr (List.mem_append.mpr (Or.inl ?_))
      simp only [riskPhase]
      rw [hc7]
      simp [List.mem_append, hc]

def reqAllFailing : AssessmentRequest :=
  { feature_name := "Campaign helper"
    feature_description := "A simple helper"
    data_subjects := some ["end users"]
    processing_operations := some ["automated decision"]
    purposes := some ["marketing"]
    lawful_basis_candidate := some "legitimate interest"
    retention := some "90 days" }

theorem with_conditions_failing_criteria_witness :
    (assess reqAllFailing).decision = "SHIP WITH CONDITIONS"
  ∧ conditionStorage ∈ (assess reqAllFailing).conditions
  ∧ conditionPurpose ∈ (assess reqAllFailing).conditions := by
  have hall := with_conditions_failing_criteria reqAllFailing (by decide)
  exact ⟨by decide, (hall.2.2.1 (by decide)).2, (hall.2.1 (by decide)).2⟩

/-! ## Unparseable retention degrades gracefully (claim C9) -/

lemma contrib1_ids (req : AssessmentRequest) (rk : RiskItem)
    (h : rk ∈ (contrib1 req).1) :
    rk = contentRiskLow ∨ rk = contentRiskDefault := by
  unfold contrib1 at h
  split at h
  · split at h
    · simp at h; exact Or.inl h
    · simp at h; exact Or.inr h
  · simp at h

lemma contrib3_ids (req : AssessmentRequest) (rk : RiskItem)
    (h : rk ∈ (contrib3 req).1) : rk = lawfulRisk := by
  unfold contrib3 at h
  split at h <;> simp at h
  exact h

lemma contrib4_ids (req : AssessmentRequest) (rk : RiskItem)
    (h : rk ∈ (contrib4 req).1) : rk = vendorRisk := by
  unfold contrib4 at h
  split at h <;> simp at h
  exact h

lemma contrib5_ids (req : AssessmentRequest) (rk : RiskItem)
    (h : rk ∈ (contrib5 req).1) : ∃ s, rk = transferRiskWith s := by
  unfold contrib5 at h
  split at h
  · simp at h
  · split at h
    · simp at h; exact ⟨_, h⟩
    · simp at h

lemma contrib6_ids (req : AssessmentRequest) (rk : RiskItem)
    (h : rk ∈ (contrib6 req).1) : ∃ b, rk = trainingRiskWith b := by
  unfold contrib6 at h
  split at h
  · simp at h; exact ⟨_, h⟩
  · simp at h

lemma contrib7_ids (req : AssessmentRequest) (rk : RiskItem)
    (h : rk ∈ (contrib7 req).1) : rk = autoSigRisk ∨ rk = autoAdvRisk := by
  unfold contrib7 at h
  split at h
  · simp at h; exact Or.inl h
  · split at h
    · simp at h; exact Or.inr h
    · simp at h

/-- C9: a present but unparseable retention string is not an error: the
parsed retention is absent, `retention_ok` holds, no storage-limitation risk
is emitted, and the degradation surfaces as exactly one retention assumption
(the could-not-be-parsed one) and one retention follow-up question. -/
theorem unparseable_retention_degrades (req : AssessmentRequest) (r : String)
    (hr : req.retention = some r) (hne : r ≠ "")
    (hp : _parse_retention_days req.retention = none) :
    retention_ok req = true
  ∧ (∀ rk ∈ (assess req).risks, rk.id ≠ "storage_limitation")
  ∧ (∃ rest, (assessAssumptionsFollowups req).1 = assumptionRetentionUnparsed :: rest
      ∧ assumptionRetentionUnparsed ∉ rest ∧ assumptionRetentionUnspecified ∉ rest)
  ∧ (∃ rest, (assessAssumptionsFollowups req).2 = followupRetentionUnparsed :: rest
      ∧ followupRetentionUnparsed ∉ rest ∧ followupRetentionUnspecified ∉ rest) := by
  have hok : retention_ok req = true := by
    unfold retention_ok
    rw [hp]
  have hc2 : contrib2 req = ([], []) := by
    unfold contrib2
    rw [hp]
  refine ⟨hok, ?_, ?_, ?_⟩
  · intro rk hrk
    have hrk' : rk ∈ (riskPhase req).1 := hrk
    simp only [riskPhase, List.mem_append] at hrk'
    rcases hrk' with ((((((h1 | h2) | h3) | h4) | h5) | h6) | h7)
    · rcases contrib1_ids req rk h1 with rfl | rfl <;> decide
    · rw [hc2] at h2; simp at h2
    · rw [contrib3_ids req rk h3]; decide
    · rw [contrib4_ids req rk h4]; decide
    · obtain ⟨s, rfl⟩ := contrib5_ids req rk h5
      exact (by decide : ("international_transfers" : String) ≠ "storage_limitation")
    · obtain ⟨b, rfl⟩ := contrib6_ids req rk h6
      exact (by decide : ("training_or_reuse_user_content" : String) ≠ "storage_limitation")
    · rcases contrib7_ids req rk h7 with rfl | rfl <;> decide
  · have htr : retentionTruthy req = true := by
      unfold retentionTruthy
      rw [hr]
      simp [hne]
    refine ⟨(if has_automation req then [assumptionAutomation] else []) ++
      (if training_or_reuse req then [assumptionTraining] else []), ?_, ?_, ?_⟩
    · show (_build_assumptions_and_followups req (_parse_retention_days req.retention)
        (has_automation req) (inferred_significant_effects req)
        (training_or_reuse req) (lawful_basis_missing req)).1 = _
      rw [hp]
      unfold _build_assumptions_and_followups
      rw [htr]
      by_cases ha : has_automation req = true <;>
        by_cases htor : training_or_reuse req = true <;>
          simp [ha, htor]
    · by_cases ha : has_automation req = true <;>
        by_cases htor : training_or_reuse req = true <;>
          simp [ha, htor] <;> decide
    · by_cases ha : has_automation req = true <;>
        by_cases htor : training_or_reuse req = true <;>
          simp [ha, htor] <;> decide
  · have htr : retentionTruthy req = true := by
      unfold retentionTruthy
      rw [hr]
      simp [hne]
    refine ⟨(if has_automation req then
        (if inferred_significant_effects req then [followupAutomationSig]
         else [followupAutomationAdvisory1, followupAutomationAdvisory2]) else []) ++
      (if training_or_reuse req then [followupTraining1, followupTraining2] else []) ++
      (if lawful_basis_missing req then [followupLawful] else []) ++
      (if optBoolTruthy req.vendors_involved then [followupVendors] else []) ++
      (if transferCheckNeeded req then [followupTransfers] else []), ?_, ?_, ?_⟩
    · show (_build_assumptions_and_followups req (_parse_retention_days req.retention)
        (has_automation req) (inferred_significant_effects req)
        (training_or_reuse req) (lawful_basis_missing req)).2 = _
      rw [hp]
      unfold _build_assumptions_and_followups
      rw [htr]
      by_cases ha : has_automation req = true <;>
        by_cases hise : inferred_significant_effects req = true <;>
          by_cases htor : training_or_reuse req = true <;>
            by_cases hlbm : lawful_basis_missing req = true <;>
              by_cases hv : optBoolTruthy req.vendors_involved = true <;>
                by_cases htc : transferCheckNeeded req = true <;>
                  simp [ha, hise, htor, hlbm, hv, htc]
    · by_cases ha : has_automation req = true <;>
        by_cases hise : inferred_significant_effects req = true <;>
          by_cases htor : training_or_reuse req = true <;>
            by_cases hlbm : lawful_basis_missing req = true <;>
              by_cases hv : optBoolTruthy req.vendors_involved = true <;>
                by_cases htc : transferCheckNeeded req = true <;>
                  simp [ha, hise, htor, hlbm, hv, htc] <;> decide
    · by_cases ha : has_automation req = true <;>
        by_cases hise : inferred_significant_effects req = true <;>
          by_cases htor : training_or_reuse req = true <;>
            by_cases hlbm : lawful_basis_missing req = true <;>
              by_cases hv : optBoolTruthy req.vendors_involved = true <;>
                by_cases htc : transferCheckNeeded req = true <;>
                  simp [ha, hise, htor, hlbm, hv, htc] <;> decide

def reqUnparseableRetention : AssessmentRequest :=
  { feature_name := "Draft helper"
    feature_description := "A drafting helper"
    data_subjects := some ["end users"]
    purposes := some ["security"]
    lawful_basis_candidate := some "legitimate interest"
    retention := some "forever" }

theorem unparseable_retention_degrades_witness :
    _parse_retention_days (some "forever") = none
  ∧ retention_ok reqUnparseableRetention = true
  ∧ (∃ rest, (assessAssumptionsFollowups reqUnparseableRetention).1 =
      assumptionRetentionUnparsed :: rest) := by
  have h := unparseable_retention_degrades reqUnparseableRetention "forever"
    rfl (by decide) (by decide)
  obtain ⟨rest, hrest, -, -⟩ := h.2.2.1
  exact ⟨by decide, h.1, ⟨rest, hrest⟩⟩
